import Mathlib

/-!
# Verification of the COS3712 WebGL demo repository

This development gives a shallow embedding, in Lean 4, of the parts of the
repository that carry mathematical or behavioural content:

* the Angel.js-style vector/matrix utility module (determinants, cofactor
  inverses, `mult`, `perspective`, `lookAt`, `normalize`, the `vecN`/`matN`
  constructors, and the throwing input validation of the generic operations);
* the ES6 `Vector`/`Matrix` class hierarchy (`Matrix4` and its `times` method);
* the buffer-population code of `main.js` and its refactoring into
  `BufferFactory` in `buffers.js`.

JavaScript numbers are modelled as exact numbers: rationals (`ℚ`) where the
source only uses field operations, reals (`ℝ`) where the source calls
`Math.sqrt`/`Math.tan`/`Math.PI`.  Code that throws is modelled with
`Except String`.  JS arrays of numbers are modelled as `List ℚ` where the
length-dependent behaviour matters, and as functions out of `Fin n`
(`Matrix (Fin n) (Fin n) ℚ`, with `m[i][j]` becoming `m i j`) where the
source only ever indexes with constant in-range indices.
-/

namespace Angel

/-! ## Determinants (`det2`, `det3`, `det4`, dispatcher `det`)

Transcribed from the Angel.js module (`src/unnamed/part_005`, lines
1046–1098).  The source receives arrays of arrays and indexes them with the
constant indices `m[i][j]`; we model an `n`-by-`n` array of numbers as
`Matrix (Fin n) (Fin n) ℚ`. -/

/-- `det2(m)`: `m[0][0]*m[1][1] - m[0][1]*m[1][0]`. -/
def det2 (m : Matrix (Fin 2) (Fin 2) ℚ) : ℚ :=
  m 0 0 * m 1 1 - m 0 1 * m 1 0

/-- `det3(m)`: the six-term sum computed by the source, term for term. -/
def det3 (m : Matrix (Fin 3) (Fin 3) ℚ) : ℚ :=
  m 0 0 * m 1 1 * m 2 2
    + m 0 1 * m 1 2 * m 2 0
    + m 0 2 * m 2 1 * m 1 0
    - m 2 0 * m 1 1 * m 0 2
    - m 1 0 * m 0 1 * m 2 2
    - m 0 0 * m 1 2 * m 2 1

/-- `det4(m)`: the source builds the four 3×3 minors `m0 … m3` of the first
row (as arrays of `vec3`s) and returns
`m[0][0]*det3(m0) - m[0][1]*det3(m1) + m[0][2]*det3(m2) - m[0][3]*det3(m3)`. -/
def det4 (m : Matrix (Fin 4) (Fin 4) ℚ) : ℚ :=
  m 0 0 * det3 (Matrix.of
      ![![m 1 1, m 1 2, m 1 3], ![m 2 1, m 2 2, m 2 3], ![m 3 1, m 3 2, m 3 3]])
    - m 0 1 * det3 (Matrix.of
      ![![m 1 0, m 1 2, m 1 3], ![m 2 0, m 2 2, m 2 3], ![m 3 0, m 3 2, m 3 3]])
    + m 0 2 * det3 (Matrix.of
      ![![m 1 0, m 1 1, m 1 3], ![m 2 0, m 2 1, m 2 3], ![m 3 0, m 3 1, m 3 3]])
    - m 0 3 * det3 (Matrix.of
      ![![m 1 0, m 1 1, m 1 2], ![m 2 0, m 2 1, m 2 2], ![m 3 0, m 3 1, m 3 2]])

/-- A square matrix of one of the three sizes the Angel.js dispatchers
(`det`, `inverse`) accept.  The source dispatches on `m.length`; the
constructor of `SqMat` plays the role of that length. -/
inductive SqMat where
  | m2 (m : Matrix (Fin 2) (Fin 2) ℚ)
  | m3 (m : Matrix (Fin 3) (Fin 3) ℚ)
  | m4 (m : Matrix (Fin 4) (Fin 4) ℚ)

/-- The dispatcher `det(m)`: `det2` when `m.length == 2`, `det3` when `3`,
`det4` when `4`. -/
def det : SqMat → ℚ
  | .m2 m => det2 m
  | .m3 m => det3 m
  | .m4 m => det4 m

/-- Spec-side reading of C2: the standard mathematical determinant
(Mathlib's `Matrix.det`) of a dispatcher argument. -/
def stdDet : SqMat → ℚ
  | .m2 m => m.det
  | .m3 m => m.det
  | .m4 m => m.det

lemma det2_eq_det (m : Matrix (Fin 2) (Fin 2) ℚ) : det2 m = m.det := by
  rw [Matrix.det_fin_two]; unfold det2; ring

lemma det3_eq_det (m : Matrix (Fin 3) (Fin 3) ℚ) : det3 m = m.det := by
  rw [Matrix.det_fin_three]; unfold det3; ring

lemma det4_eq_det (m : Matrix (Fin 4) (Fin 4) ℚ) : det4 m = m.det := by
  rw [Matrix.det_succ_row_zero]
  simp only [Fin.sum_univ_four, Matrix.det_fin_three, Matrix.submatrix_apply,
    Fin.zero_succAbove, Fin.succ_succAbove_zero, Fin.succ_succAbove_one,
    Fin.succ_zero_eq_one, Fin.succ_one_eq_two, Fin.val_zero, Fin.val_one, Fin.val_two,
    show Fin.succ (2 : Fin 3) = (3 : Fin 4) from rfl,
    show Fin.succAbove (1 : Fin 4) 0 = 0 by decide,
    show Fin.succAbove (1 : Fin 4) 1 = 2 by decide,
    show Fin.succAbove (1 : Fin 4) 2 = 3 by decide,
    show Fin.succAbove (2 : Fin 4) 0 = 0 by decide,
    show Fin.succAbove (2 : Fin 4) 1 = 1 by decide,
    show Fin.succAbove (2 : Fin 4) 2 = 3 by decide,
    show Fin.succAbove (3 : Fin 4) 0 = 0 by decide,
    show Fin.succAbove (3 : Fin 4) 1 = 1 by decide,
    show Fin.succAbove (3 : Fin 4) 2 = 2 by decide,
    show ((3 : Fin 4) : ℕ) = 3 from rfl]
  unfold det4 det3
  simp only [Matrix.of_apply, Matrix.cons_val', Matrix.cons_val_zero, Matrix.cons_val_one,
    Matrix.cons_val_two, Matrix.head_cons, Matrix.tail_cons, Matrix.head_fin_const,
    Matrix.empty_val', Matrix.cons_val_fin_one]
  ring

/-- C2: det2 (n = 2), det3 (n = 3) and det4 (n = 4) — and hence the dispatcher
`det(m)` — return the standard mathematical determinant (Mathlib's
`Matrix.det`, the signed sum over all permutations). -/
theorem claim_C2_det_standard :
    (∀ m : Matrix (Fin 2) (Fin 2) ℚ, det2 m = m.det) ∧
    (∀ m : Matrix (Fin 3) (Fin 3) ℚ, det3 m = m.det) ∧
    (∀ m : Matrix (Fin 4) (Fin 4) ℚ, det4 m = m.det) ∧
    (∀ s : SqMat, det s = stdDet s) :=
  ⟨det2_eq_det, det3_eq_det, det4_eq_det, by
    rintro (m | m | m) <;>
      simp only [det, stdDet, det2_eq_det, det3_eq_det, det4_eq_det]⟩

/-! ## Matrix multiplication and the cofactor inverses

`mult(u, v)` (part_005 lines 595–651), matrix×matrix branch: after checking
that the dimensions agree, `result[i].push(sum)` with
`sum = Σ_k u[i][k]*v[k][j]`.  `inverse2/3/4` (lines 1104–1286) start from
the identity (`mat2()/mat3()/mat4()`), overwrite every entry with the
signed 2×2/3×3 minor determinant divided by `d = det2(m)/det3(m)/det4(m)`,
and return the result; since every entry is overwritten, the definitions
below list the final entries directly.  Each minor below is transcribed
from the corresponding `aij` array of the source. -/

/-- The matrix×matrix branch of `mult(u, v)` for two square matrices of the
same dimension (the source throws otherwise): entry `(i, j)` is
`Σ_k u[i][k]*v[k][j]`. -/
def mult {n : ℕ} (u v : Matrix (Fin n) (Fin n) ℚ) : Matrix (Fin n) (Fin n) ℚ :=
  Matrix.of fun i j => ∑ k, u i k * v k j

/-- `inverse2(m)`: `a[0][0] = m[1][1]/d`, `a[0][1] = -m[0][1]/d`,
`a[1][0] = -m[1][0]/d`, `a[1][1] = m[0][0]/d` with `d = det2(m)`. -/
def inverse2 (m : Matrix (Fin 2) (Fin 2) ℚ) : Matrix (Fin 2) (Fin 2) ℚ :=
  Matrix.of ![![m 1 1 / det2 m, -m 0 1 / det2 m],
              ![-m 1 0 / det2 m, m 0 0 / det2 m]]

/-- `inverse3(m)`: entry `(i, j)` is the signed `det2` of the source's 2×2
minor `a[j][i]` divided by `d = det3(m)`. -/
def inverse3 (m : Matrix (Fin 3) (Fin 3) ℚ) : Matrix (Fin 3) (Fin 3) ℚ :=
  Matrix.of
    ![![det2 (Matrix.of ![![m 1 1, m 1 2], ![m 2 1, m 2 2]]) / det3 m,
       -det2 (Matrix.of ![![m 0 1, m 0 2], ![m 2 1, m 2 2]]) / det3 m,
       det2 (Matrix.of ![![m 0 1, m 0 2], ![m 1 1, m 1 2]]) / det3 m],
      ![-det2 (Matrix.of ![![m 1 0, m 1 2], ![m 2 0, m 2 2]]) / det3 m,
       det2 (Matrix.of ![![m 0 0, m 0 2], ![m 2 0, m 2 2]]) / det3 m,
       -det2 (Matrix.of ![![m 0 0, m 0 2], ![m 1 0, m 1 2]]) / det3 m],
      ![det2 (Matrix.of ![![m 1 0, m 1 1], ![m 2 0, m 2 1]]) / det3 m,
       -det2 (Matrix.of ![![m 0 0, m 0 1], ![m 2 0, m 2 1]]) / det3 m,
       det2 (Matrix.of ![![m 0 0, m 0 1], ![m 1 0, m 1 1]]) / det3 m]]

/-- `inverse4(m)`: entry `(i, j)` is the signed `det3` of the source's 3×3
minor `a[j][i]` divided by `d = det4(m)`. -/
def inverse4 (m : Matrix (Fin 4) (Fin 4) ℚ) : Matrix (Fin 4) (Fin 4) ℚ :=
  Matrix.of
    ![![det3 (Matrix.of
        ![![m 1 1, m 1 2, m 1 3], ![m 2 1, m 2 2, m 2 3], ![m 3 1, m 3 2, m 3 3]]) / det4 m,
      -det3 (Matrix.of
        ![![m 0 1, m 0 2, m 0 3], ![m 2 1, m 2 2, m 2 3], ![m 3 1, m 3 2, m 3 3]]) / det4 m,
      det3 (Matrix.of
        ![![m 0 1, m 0 2, m 0 3], ![m 1 1, m 1 2, m 1 3], ![m 3 1, m 3 2, m 3 3]]) / det4 m,
      -det3 (Matrix.of
        ![![m 0 1, m 0 2, m 0 3], ![m 1 1, m 1 2, m 1 3], ![m 2 1, m 2 2, m 2 3]]) / det4 m],
     ![-det3 (Matrix.of
        ![![m 1 0, m 1 2, m 1 3], ![m 2 0, m 2 2, m 2 3], ![m 3 0, m 3 2, m 3 3]]) / det4 m,
      det3 (Matrix.of
        ![![m 0 0, m 0 2, m 0 3], ![m 2 0, m 2 2, m 2 3], ![m 3 0, m 3 2, m 3 3]]) / det4 m,
      -det3 (Matrix.of
        ![![m 0 0, m 0 2, m 0 3], ![m 1 0, m 1 2, m 1 3], ![m 3 0, m 3 2, m 3 3]]) / det4 m,
      det3 (Matrix.of
        ![![m 0 0, m 0 2, m 0 3], ![m 1 0, m 1 2, m 1 3], ![m 2 0, m 2 2, m 2 3]]) / det4 m],
     ![det3 (Matrix.of
        ![![m 1 0, m 1 1, m 1 3], ![m 2 0, m 2 1, m 2 3], ![m 3 0, m 3 1, m 3 3]]) / det4 m,
      -det3 (Matrix.of
        ![![m 0 0, m 0 1, m 0 3], ![m 2 0, m 2 1, m 2 3], ![m 3 0, m 3 1, m 3 3]]) / det4 m,
      det3 (Matrix.of
        ![![m 0 0, m 0 1, m 0 3], ![m 1 0, m 1 1, m 1 3], ![m 3 0, m 3 1, m 3 3]]) / det4 m,
      -det3 (Matrix.of
        ![![m 0 0, m 0 1, m 0 3], ![m 1 0, m 1 1, m 1 3], ![m 2 0, m 2 1, m 2 3]]) / det4 m],
     ![-det3 (Matrix.of
        ![![m 1 0, m 1 1, m 1 2], ![m 2 0, m 2 1, m 2 2], ![m 3 0, m 3 1, m 3 2]]) / det4 m,
      det3 (Matrix.of
        ![![m 0 0, m 0 1, m 0 2], ![m 2 0, m 2 1, m 2 2], ![m 3 0, m 3 1, m 3 2]]) / det4 m,
      -det3 (Matrix.of
        ![![m 0 0, m 0 1, m 0 2], ![m 1 0, m 1 1, m 1 2], ![m 3 0, m 3 1, m 3 2]]) / det4 m,
      det3 (Matrix.of
        ![![m 0 0, m 0 1, m 0 2], ![m 1 0, m 1 1, m 1 2], ![m 2 0, m 2 1, m 2 2]]) / det4 m]]

/-- The dispatcher `inverse(m)`: `inverse2` when `m.length == 2`, `inverse3`
when `3`, `inverse4` when `4`. -/
def inverseSq : SqMat → SqMat
  | .m2 m => .m2 (inverse2 m)
  | .m3 m => .m3 (inverse3 m)
  | .m4 m => .m4 (inverse4 m)

/-- The identity matrix of the same dimension as the given dispatcher
argument. -/
def sqOne : SqMat → SqMat
  | .m2 _ => .m2 1
  | .m3 _ => .m3 1
  | .m4 _ => .m4 1

/-- `mult(u, v)` on two dispatcher arguments: the source throws when the
dimensions differ (with the message copied from `add`), and otherwise
returns the matrix product. -/
def multSq : SqMat → SqMat → Except String SqMat
  | .m2 u, .m2 v => .ok (.m2 (mult u v))
  | .m3 u, .m3 v => .ok (.m3 (mult u v))
  | .m4 u, .m4 v => .ok (.m4 (mult u v))
  | _, _ => .error "mult(): trying to add matrices of different dimensions"

lemma fin3_mk_two (h : 2 < 3) : (⟨2, h⟩ : Fin 3) = 2 := rfl

lemma fin4_mk_two (h : 2 < 4) : (⟨2, h⟩ : Fin 4) = 2 := rfl

lemma fin4_mk_three (h : 3 < 4) : (⟨3, h⟩ : Fin 4) = 3 := rfl

lemma one4_lit : (1 : Matrix (Fin 4) (Fin 4) ℚ) =
    Matrix.of ![![1, 0, 0, 0], ![0, 1, 0, 0], ![0, 0, 1, 0], ![0, 0, 0, 1]] := by
  ext i j
  fin_cases i <;> fin_cases j <;> rfl

lemma inv2_left (m : Matrix (Fin 2) (Fin 2) ℚ) (hd : det2 m ≠ 0) :
    mult (inverse2 m) m = 1 := by
  have hd' : m 0 0 * m 1 1 - m 0 1 * m 1 0 ≠ 0 := by simpa [det2] using hd
  ext i j
  fin_cases i <;> fin_cases j <;>
    simp only [mult, inverse2, det2, Fin.sum_univ_two, Matrix.one_apply, Matrix.of_apply,
      Matrix.cons_val', Matrix.cons_val_zero, Matrix.cons_val_one, Matrix.head_cons,
      Matrix.head_fin_const, Matrix.empty_val', Matrix.cons_val_fin_one, if_true, if_false] <;>
    norm_num [Fin.ext_iff] <;> field_simp <;> ring

lemma inv3_left (m : Matrix (Fin 3) (Fin 3) ℚ) (hd : det3 m ≠ 0) :
    mult (inverse3 m) m = 1 := by
  have hd' : m 0 0 * m 1 1 * m 2 2 + m 0 1 * m 1 2 * m 2 0 + m 0 2 * m 2 1 * m 1 0
      - m 2 0 * m 1 1 * m 0 2 - m 1 0 * m 0 1 * m 2 2 - m 0 0 * m 1 2 * m 2 1 ≠ 0 := by
    simpa [det3] using hd
  ext i j
  fin_cases i <;> fin_cases j <;>
    simp only [mult, inverse3, det2, det3, Fin.sum_univ_three, Matrix.one_apply,
      Matrix.of_apply, Matrix.cons_val', Matrix.cons_val_zero, Matrix.cons_val_one,
      Matrix.cons_val_two, Matrix.head_cons, Matrix.tail_cons, Matrix.head_fin_const,
      Matrix.empty_val', Matrix.cons_val_fin_one, Fin.mk_zero, Fin.mk_one, fin3_mk_two] <;>
    norm_num [Fin.ext_iff] <;> field_simp <;> ring

set_option maxHeartbeats 3200000 in
lemma inv4_left (m : Matrix (Fin 4) (Fin 4) ℚ) (hd : det4 m ≠ 0) :
    mult (inverse4 m) m = 1 := by
  rw [one4_lit]
  ext i j
  fin_cases i <;> fin_cases j <;>
    simp only [mult, inverse4, Fin.sum_univ_four,
      Matrix.of_apply, Matrix.cons_val', Matrix.cons_val_zero, Matrix.cons_val_one,
      Matrix.cons_val_two, Matrix.cons_val_three, Matrix.head_cons, Matrix.tail_cons,
      Matrix.head_fin_const, Matrix.empty_val', Matrix.cons_val_fin_one,
      Fin.mk_zero, Fin.mk_one, fin4_mk_two, fin4_mk_three] <;>
    simp only [div_mul_eq_mul_div, div_add_div_same] <;>
    rw [div_eq_iff hd] <;>
    (simp only [det4, det3, Matrix.of_apply, Matrix.cons_val', Matrix.cons_val_zero,
      Matrix.cons_val_one, Matrix.cons_val_two, Matrix.head_cons, Matrix.tail_cons,
      Matrix.head_fin_const, Matrix.empty_val', Matrix.cons_val_fin_one]) <;> ring

/-- C1: for every n in 2, 3, 4 and every n×n rational matrix m with
nonzero determinant, `mult(inverseN(m), m)` is the n×n identity matrix
(and likewise through the dispatcher `inverse`): the cofactor inverses are
true left inverses under exact arithmetic. -/
theorem claim_C1_inverse_left_inverse :
    (∀ m : Matrix (Fin 2) (Fin 2) ℚ, det2 m ≠ 0 → mult (inverse2 m) m = 1) ∧
    (∀ m : Matrix (Fin 3) (Fin 3) ℚ, det3 m ≠ 0 → mult (inverse3 m) m = 1) ∧
    (∀ m : Matrix (Fin 4) (Fin 4) ℚ, det4 m ≠ 0 → mult (inverse4 m) m = 1) ∧
    (∀ s : SqMat, det s ≠ 0 → multSq (inverseSq s) s = .ok (sqOne s)) :=
  ⟨inv2_left, inv3_left, inv4_left, by
    rintro (m | m | m) hd <;>
      simp only [det] at hd <;>
      simp only [multSq, inverseSq, sqOne, Except.ok.injEq, SqMat.m2.injEq,
        SqMat.m3.injEq, SqMat.m4.injEq]
    · exact inv2_left m hd
    · exact inv3_left m hd
    · exact inv4_left m hd⟩

/-- Witness for C1 at concrete invertible matrices of each size. -/
theorem claim_C1_inverse_left_inverse_witness :
    (det2 !![(1 : ℚ), 2; 3, 4] ≠ 0 ∧
      mult (inverse2 !![(1 : ℚ), 2; 3, 4]) !![(1 : ℚ), 2; 3, 4] = 1) ∧
    (det3 !![(1 : ℚ), 0, 0; 0, 2, 0; 0, 0, 3] ≠ 0 ∧
      mult (inverse3 !![(1 : ℚ), 0, 0; 0, 2, 0; 0, 0, 3])
        !![(1 : ℚ), 0, 0; 0, 2, 0; 0, 0, 3] = 1) ∧
    (det4 !![(1 : ℚ), 0, 0, 0; 0, 1, 0, 0; 0, 0, 1, 0; 0, 0, 0, 2] ≠ 0 ∧
      mult (inverse4 !![(1 : ℚ), 0, 0, 0; 0, 1, 0, 0; 0, 0, 1, 0; 0, 0, 0, 2])
        !![(1 : ℚ), 0, 0, 0; 0, 1, 0, 0; 0, 0, 1, 0; 0, 0, 0, 2] = 1) ∧
    (det (SqMat.m2 !![(1 : ℚ), 2; 3, 4]) ≠ 0 ∧
      multSq (inverseSq (SqMat.m2 !![(1 : ℚ), 2; 3, 4])) (SqMat.m2 !![(1 : ℚ), 2; 3, 4]) =
        .ok (sqOne (SqMat.m2 !![(1 : ℚ), 2; 3, 4]))) :=
  have h2 : det2 !![(1 : ℚ), 2; 3, 4] ≠ 0 := by
    norm_num [det4, det3, det2, Matrix.of_apply, Matrix.cons_val', Matrix.cons_val_zero, Matrix.cons_val_one, Matrix.cons_val_two, Matrix.cons_val_three, Matrix.head_cons, Matrix.tail_cons, Matrix.head_fin_const, Matrix.empty_val', Matrix.cons_val_fin_one]
  have h3 : det3 !![(1 : ℚ), 0, 0; 0, 2, 0; 0, 0, 3] ≠ 0 := by
    norm_num [det4, det3, det2, Matrix.of_apply, Matrix.cons_val', Matrix.cons_val_zero, Matrix.cons_val_one, Matrix.cons_val_two, Matrix.cons_val_three, Matrix.head_cons, Matrix.tail_cons, Matrix.head_fin_const, Matrix.empty_val', Matrix.cons_val_fin_one]
  have h4 : det4 !![(1 : ℚ), 0, 0, 0; 0, 1, 0, 0; 0, 0, 1, 0; 0, 0, 0, 2] ≠ 0 := by
    norm_num [det4, det3, det2, Matrix.of_apply, Matrix.cons_val', Matrix.cons_val_zero, Matrix.cons_val_one, Matrix.cons_val_two, Matrix.cons_val_three, Matrix.head_cons, Matrix.tail_cons, Matrix.head_fin_const, Matrix.empty_val', Matrix.cons_val_fin_one]
  have hs : det (SqMat.m2 !![(1 : ℚ), 2; 3, 4]) ≠ 0 := by
    norm_num [det, det2, Matrix.of_apply, Matrix.cons_val', Matrix.cons_val_zero, Matrix.cons_val_one, Matrix.head_cons, Matrix.head_fin_const, Matrix.empty_val', Matrix.cons_val_fin_one]
  ⟨⟨h2, claim_C1_inverse_left_inverse.1 _ h2⟩,
   ⟨h3, claim_C1_inverse_left_inverse.2.1 _ h3⟩,
   ⟨h4, claim_C1_inverse_left_inverse.2.2.1 _ h4⟩,
   ⟨hs, claim_C1_inverse_left_inverse.2.2.2 _ hs⟩⟩

/-! ## The `vecN`/`matN` constructors (part_005 lines 162–258 and 402–484)

`_argumentsToArray` flattens the JS `arguments` object one level into a
plain array, so each constructor receives one flat list of numbers.  The
`switch (result.length)` statements fall through: starting at the case for
the received length, every later `push` runs.  The trailing
`result.splice(0, n)` / row construction keeps the first `n` entries. -/

/-- `vec2(...)`: pad to length ≥ 2 with `0.0`, keep the first two. -/
def vec2 (args : List ℚ) : List ℚ :=
  (match args.length with
    | 0 => args ++ [0, 0]
    | 1 => args ++ [0]
    | _ => args).take 2

/-- `vec3(...)`: pad to length ≥ 3 with `0.0`, keep the first three. -/
def vec3 (args : List ℚ) : List ℚ :=
  (match args.length with
    | 0 => args ++ [0, 0, 0]
    | 1 => args ++ [0, 0]
    | 2 => args ++ [0]
    | _ => args).take 3

/-- `vec4(...)`: pad with `0.0` up to the fourth component, whose `case 3`
push is `1.0`; keep the first four. -/
def vec4 (args : List ℚ) : List ℚ :=
  (match args.length with
    | 0 => args ++ [0, 0, 0, 1]
    | 1 => args ++ [0, 0, 1]
    | 2 => args ++ [0, 1]
    | 3 => args ++ [1]
    | _ => args).take 4

/-- `mat2(...)`: with no argument `v[0] = 1` and the diagonal form is built;
with one argument the diagonal form of `v[0]`; otherwise rows are cut off
the flat argument list two at a time (`vec2(v)` then `v.splice(0, 2)`). -/
def mat2 (args : List ℚ) : List (List ℚ) :=
  match args with
  | [] => [vec2 [1, 0], vec2 [0, 1]]
  | [a] => [vec2 [a, 0], vec2 [0, a]]
  | _ => [vec2 args, vec2 (args.drop 2)]

/-- `mat3(...)`: as `mat2`, three at a time. -/
def mat3 (args : List ℚ) : List (List ℚ) :=
  match args with
  | [] => [vec3 [1, 0, 0], vec3 [0, 1, 0], vec3 [0, 0, 1]]
  | [a] => [vec3 [a, 0, 0], vec3 [0, a, 0], vec3 [0, 0, a]]
  | _ => [vec3 args, vec3 (args.drop 3), vec3 (args.drop 6)]

/-- `mat4(...)`: as `mat2`, four at a time. -/
def mat4 (args : List ℚ) : List (List ℚ) :=
  match args with
  | [] => [vec4 [1, 0, 0, 0], vec4 [0, 1, 0, 0], vec4 [0, 0, 1, 0], vec4 [0, 0, 0, 1]]
  | [a] => [vec4 [a, 0, 0, 0], vec4 [0, a, 0, 0], vec4 [0, 0, a, 0], vec4 [0, 0, 0, a]]
  | _ => [vec4 args, vec4 (args.drop 4), vec4 (args.drop 8), vec4 (args.drop 12)]

/-- C9: the vector constructors pad missing components with defaults —
`vec2()`/`vec3()` fill every unsupplied component with 0.0, `vec4` fills
with 0.0 except the fourth component, which defaults to 1.0 (so `vec4()`
is `[0, 0, 0, 1]`); `mat2()`, `mat3()`, `mat4()` with no arguments return
the identity matrix of their dimension. -/
theorem claim_C9_constructor_defaults :
    (vec2 [] = [0, 0] ∧ ∀ a : ℚ, vec2 [a] = [a, 0]) ∧
    (vec3 [] = [0, 0, 0] ∧ (∀ a : ℚ, vec3 [a] = [a, 0, 0]) ∧
      ∀ a b : ℚ, vec3 [a, b] = [a, b, 0]) ∧
    (vec4 [] = [0, 0, 0, 1] ∧ (∀ a : ℚ, vec4 [a] = [a, 0, 0, 1]) ∧
      (∀ a b : ℚ, vec4 [a, b] = [a, b, 0, 1]) ∧
      ∀ a b c : ℚ, vec4 [a, b, c] = [a, b, c, 1]) ∧
    mat2 [] = [[1, 0], [0, 1]] ∧
    mat3 [] = [[1, 0, 0], [0, 1, 0], [0, 0, 1]] ∧
    mat4 [] = [[1, 0, 0, 0], [0, 1, 0, 0], [0, 0, 1, 0], [0, 0, 0, 1]] :=
  ⟨⟨rfl, fun _ => rfl⟩,
   ⟨rfl, fun _ => rfl, fun _ _ => rfl⟩,
   ⟨rfl, fun _ => rfl, fun _ _ => rfl, fun _ _ _ => rfl⟩,
   rfl, rfl, rfl⟩

/-! ## Throwing input validation of the generic operations

The generic operations (part_005 lines 510–700 and 861–980) receive plain
JS arrays, optionally tagged with `.matrix = true`; they `throw` string
messages on malformed input.  `AngVal` models a tagged value, and each
operation becomes an `Except String`-returning function.  Where a guard
tests something the typed embedding rules out (`Array.isArray(u)`,
`typeof s !== "number"`), that guard cannot fire and is not represented.
Out-of-range JS index reads (which yield `undefined`/`NaN` arithmetic but
never a throw) are modelled with default `0`; no theorem below depends on
those values. -/

/-- A value passed to the generic operations: a vector (plain array of
numbers) or a matrix (array of rows with `.matrix == true`). -/
inductive AngVal where
  | vec (u : List ℚ)
  | mat (m : List (List ℚ))

/-- `add(u, v)`: matrices must agree in row count and in every row length;
vectors must have the same length; mixing a matrix and a non-matrix
throws. -/
def addE : AngVal → AngVal → Except String AngVal
  | .mat u, .mat v =>
    if u.length ≠ v.length then
      .error "add(): trying to add matrices of different dimensions"
    else if (u.zip v).any (fun p => p.1.length ≠ p.2.length) then
      .error "add(): trying to add matrices of different dimensions"
    else
      .ok (.mat (List.zipWith (fun r s => List.zipWith (· + ·) r s) u v))
  | .vec u, .vec v =>
    if u.length ≠ v.length then
      .error "add(): vectors are not the same dimension"
    else
      .ok (.vec (List.zipWith (· + ·) u v))
  | _, _ => .error "add(): trying to add matrix and non-matrix variables"

/-- `subtract(u, v)`: same structure as `add` (messages per source,
including its typos). -/
def subtractE : AngVal → AngVal → Except String AngVal
  | .mat u, .mat v =>
    if u.length ≠ v.length then
      .error "subtract(): trying to subtract matrices of different dimensions"
    else if (u.zip v).any (fun p => p.1.length ≠ p.2.length) then
      .error "subtract(): trying to subtact matrices of different dimensions"
    else
      .ok (.mat (List.zipWith (fun r s => List.zipWith (· - ·) r s) u v))
  | .vec u, .vec v =>
    if u.length ≠ v.length then
      .error "subtract(): vectors are not the same length"
    else
      .ok (.vec (List.zipWith (· - ·) u v))
  | _, _ => .error "subtact(): trying to subtact  matrix and non-matrix variables"

/-- `mult(u, v)` over tagged values.  Matrix×matrix: row counts and all row
lengths must agree, then `result[i][j] = Σ_k u[i][k]*v[k][j]`.  A matrix
times an equal-length vector gives the matrix–vector product.  Otherwise
the lengths must agree and the product is elementwise; for a vector times
a matrix that elementwise product multiplies numbers by rows (`NaN`s in
JS, `0` placeholders here — returned, not thrown). -/
def multE : AngVal → AngVal → Except String AngVal
  | .mat u, .mat v =>
    if u.length ≠ v.length then
      .error "mult(): trying to add matrices of different dimensions"
    else if (u.zip v).any (fun p => p.1.length ≠ p.2.length) then
      .error "mult(): trying to add matrices of different dimensions"
    else
      .ok (.mat ((List.range u.length).map (fun i =>
        (List.range v.length).map (fun j =>
          ((List.range u.length).map (fun k =>
            ((u.getD i []).getD k 0) * ((v.getD k []).getD j 0))).sum))))
  | .mat u, .vec v =>
    if u.length = v.length then
      .ok (.vec ((List.range v.length).map (fun i =>
        ((List.range v.length).map (fun j =>
          ((u.getD i []).getD j 0) * (v.getD j 0))).sum)))
    else
      .error "mult(): vectors are not the same dimension"
  | .vec u, .mat v =>
    if u.length ≠ v.length then
      .error "mult(): vectors are not the same dimension"
    else
      .ok (.vec (u.map (fun _ => 0)))
  | .vec u, .vec v =>
    if u.length ≠ v.length then
      .error "mult(): vectors are not the same dimension"
    else
      .ok (.vec (List.zipWith (· * ·) u v))

/-- `dot(u, v)`: lengths must agree; returns `Σ u[i]*v[i]`. -/
def dotE (u v : List ℚ) : Except String ℚ :=
  if u.length ≠ v.length then
    .error "dot(): vectors are not the same dimension"
  else
    .ok (List.zipWith (· * ·) u v).sum

/-- `cross(u, v)`: both arguments must be arrays of length at least 3; the
result uses only components 0–2. -/
def crossE (u v : List ℚ) : Except String (List ℚ) :=
  if u.length < 3 then
    .error "cross(): first argument is not a vector of at least 3"
  else if v.length < 3 then
    .error "cross(): second argument is not a vector of at least 3"
  else
    .ok [u.getD 1 0 * v.getD 2 0 - u.getD 2 0 * v.getD 1 0,
         u.getD 2 0 * v.getD 0 0 - u.getD 0 0 * v.getD 2 0,
         u.getD 0 0 * v.getD 1 0 - u.getD 1 0 * v.getD 0 0]

/-- `mix(u, v, s)`: `s` must be a number (typed away); lengths must agree;
returns `(1-s)*u[i] + s*v[i]`. -/
def mixE (u v : List ℚ) (s : ℚ) : Except String (List ℚ) :=
  if u.length ≠ v.length then
    .error "vector dimension mismatch"
  else
    .ok (List.zipWith (fun a b => (1 - s) * a + s * b) u v)

/-- `scale(s, u)`: the only guard is `Array.isArray(u)`, which the typed
embedding rules out; every call returns `s * u[i]` componentwise. -/
def scaleE (s : ℚ) (u : List ℚ) : Except String (List ℚ) :=
  .ok (u.map (fun x => s * x))

/-- `ortho(left, right, bottom, top, near, far)`: throws when
`left == right`, `bottom == top`, or `near == far`; otherwise starts from
`mat4()` and overwrites `[0][0], [1][1], [2][2], [0][3], [1][3], [2][3]`
with the orthographic entries. -/
def orthoE (left right bottom top near far : ℚ) :
    Except String (Matrix (Fin 4) (Fin 4) ℚ) :=
  if left = right then .error "ortho(): left and right are equal"
  else if bottom = top then .error "ortho(): bottom and top are equal"
  else if near = far then .error "ortho(): near and far are equal"
  else
    .ok (Matrix.of
      ![![2 / (right - left), 0, 0, -(left + right) / (right - left)],
        ![0, 2 / (top - bottom), 0, -(top + bottom) / (top - bottom)],
        ![0, 0, -2 / (far - near), -(near + far) / (far - near)],
        ![0, 0, 0, 1]])

/-! ## Real-valued vector functions and the camera/projection builders

`normalize`, `length`, `lookAt` and `perspective` (part_005 lines 754–830
and 889–980) call `Math.sqrt`, `Math.tan` and `Math.PI`, so this part of
the embedding lives over `ℝ`.  A JS array of three numbers becomes
`Fin 3 → ℝ`. -/

/-- `radians(degrees) = degrees * Math.PI / 180.0`. -/
noncomputable def radians (degrees : ℝ) : ℝ := degrees * Real.pi / 180.0

/-- The vector branch of `subtract(u, v)` on two 3-vectors. -/
def subtract3 (u v : Fin 3 → ℝ) : Fin 3 → ℝ := fun i => u i - v i

/-- `dot(u, v)` on two 3-vectors: `Σ u[i]*v[i]`. -/
def dot3 (u v : Fin 3 → ℝ) : ℝ := ∑ i, u i * v i

/-- `cross(u, v)` on two 3-vectors. -/
def cross3 (u v : Fin 3 → ℝ) : Fin 3 → ℝ :=
  ![u 1 * v 2 - u 2 * v 1, u 2 * v 0 - u 0 * v 2, u 0 * v 1 - u 1 * v 0]

/-- `negate(u)` on a 3-vector. -/
def negate3 (u : Fin 3 → ℝ) : Fin 3 → ℝ := fun i => -u i

/-- `length(u) = Math.sqrt(dot(u, u))`. -/
noncomputable def lengthV (u : Fin 3 → ℝ) : ℝ := Real.sqrt (dot3 u u)

/-- JS `isFinite` on an exact real.  In JS it is `false` exactly for
`NaN`/`±Infinity`, which arise only as floating-point artifacts; an exact
real is always finite, so the translation is constantly `true`. -/
def isFiniteR (_ : ℝ) : Bool := true

/-- The in-place division loop of `normalize(u)` (without
`excludeLastComponent`): after the call, `u[i]` holds `u[i]/len` with
`len = length(u)`, and that same array is the return value. -/
noncomputable def normalize3 (u : Fin 3 → ℝ) : Fin 3 → ℝ := fun i => u i / lengthV u

/-- `normalize(u)` with its throwing guard `if (!isFinite(len)) throw`;
the message in the source interpolates `u`. -/
noncomputable def normalizeE (u : Fin 3 → ℝ) : Except String (Fin 3 → ℝ) :=
  if isFiniteR (lengthV u) = false then
    .error "normalize: vector has zero length"
  else
    .ok (normalize3 u)

/-- State-passing view of `normalize(u)`: the returned value paired with
the final state of the argument array.  The source divides `u[i] /= len`
in place and returns `u` itself, so the two components coincide. -/
noncomputable def normalizeSt (u : Fin 3 → ℝ) : (Fin 3 → ℝ) × (Fin 3 → ℝ) :=
  (normalize3 u, normalize3 u)

/-- `vec4(v, w)` for a 3-vector `v` and a number `w`: the flattened
argument list is `[v[0], v[1], v[2], w]`, length 4, no padding. -/
def vec4of (v : Fin 3 → ℝ) (w : ℝ) : Fin 4 → ℝ := ![v 0, v 1, v 2, w]

/-- `lookAt(eye, at, up)` (argument-shape guards handled in `lookAtE`):
when `equal(eye, at)` the identity is returned, otherwise the rows are
built from `v = normalize(at - eye)`, `n = normalize(cross(v, up))`,
`u = normalize(cross(n, v))` and `v = negate(v)`, each extended by
`-dot(row, eye)`, with last row `vec4() = [0, 0, 0, 1]`. -/
noncomputable def lookAt (eye att up : Fin 3 → ℝ) : Matrix (Fin 4) (Fin 4) ℝ :=
  if eye = att then 1
  else
    let v := normalize3 (subtract3 att eye)
    let n := normalize3 (cross3 v up)
    let u := normalize3 (cross3 n v)
    let v2 := negate3 v
    Matrix.of
      ![vec4of n (-dot3 n eye),
        vec4of u (-dot3 u eye),
        vec4of v2 (-dot3 v2 eye),
        ![0, 0, 0, 1]]

/-- `lookAt` with the three argument-shape guards of the source (each
parameter must be an array of length 3). -/
noncomputable def lookAtE (eye att up : List ℝ) :
    Except String (Matrix (Fin 4) (Fin 4) ℝ) :=
  if eye.length ≠ 3 then .error "lookAt(): first parameter [eye] must be an a vec3"
  else if att.length ≠ 3 then .error "lookAt(): first parameter [at] must be an a vec3"
  else if up.length ≠ 3 then .error "lookAt(): first parameter [up] must be an a vec3"
  else .ok (lookAt (fun i => eye.getD i.1 0) (fun i => att.getD i.1 0)
      (fun i => up.getD i.1 0))

/-- The matrix×vector branch of `mult(u, v)` (`u.matrix` and
`u.length == v.length`): `result[i] = Σ_j u[i][j]*v[j]`. -/
def multMV (u : Matrix (Fin 4) (Fin 4) ℝ) (v : Fin 4 → ℝ) : Fin 4 → ℝ :=
  fun i => ∑ j, u i j * v j

/-- `perspective(fovy, aspect, near, far)`: starting from the identity
`mat4()`, the six entries `[0][0], [1][1], [2][2], [2][3], [3][2], [3][3]`
are overwritten (the nested conditional returns the assigned value on the
six assigned positions and the identity's entry elsewhere), with
`f = 1.0 / Math.tan(radians(fovy) / 2)` and `d = far - near`. -/
noncomputable def perspective (fovy aspect near far : ℝ) :
    Matrix (Fin 4) (Fin 4) ℝ :=
  let f := 1.0 / Real.tan (radians fovy / 2)
  let d := far - near
  Matrix.of fun i j =>
    if i = 0 ∧ j = 0 then f / aspect
    else if i = 1 ∧ j = 1 then f
    else if i = 2 ∧ j = 2 then -(near + far) / d
    else if i = 2 ∧ j = 3 then -2 * near * far / d
    else if i = 3 ∧ j = 2 then -1
    else if i = 3 ∧ j = 3 then 0
    else (1 : Matrix (Fin 4) (Fin 4) ℝ) i j

/-- Counterexample to C6 as stated: `add` does not return a value for
every input — on the length-1 vector `[1]` and the length-2 vector
`[1, 2]` it throws its dimension-mismatch error. -/
theorem claim_C6_counterexample :
    addE (.vec [1]) (.vec [1, 2]) =
      .error "add(): vectors are not the same dimension" := rfl

/-- C6 as amended: the operations of the math module throw (only) on
malformed or degenerate inputs — dimension mismatches for
`add`/`subtract`/`mult`/`dot`/`mix`, vectors shorter than 3 for `cross`,
equal plane pairs for `ortho`, non-`vec3` arguments for `lookAt` — and on
well-dimensioned inputs every operation (including `normalize` and
`scale`, whose guards cannot fire on numeric arrays) returns a value
without raising an error. -/
theorem claim_C6_amended_no_failure :
    (∀ u v : List ℚ, u.length = v.length → (addE (.vec u) (.vec v)).isOk = true) ∧
    (∀ u v : List (List ℚ), u.length = v.length →
      ((u.zip v).any fun p => p.1.length ≠ p.2.length) = false →
      (addE (.mat u) (.mat v)).isOk = true) ∧
    (∀ u v : List ℚ, u.length = v.length →
      (subtractE (.vec u) (.vec v)).isOk = true) ∧
    (∀ u v : List (List ℚ), u.length = v.length →
      ((u.zip v).any fun p => p.1.length ≠ p.2.length) = false →
      (multE (.mat u) (.mat v)).isOk = true) ∧
    (∀ u : List (List ℚ), ∀ v : List ℚ, u.length = v.length →
      (multE (.mat u) (.vec v)).isOk = true) ∧
    (∀ u v : List ℚ, u.length = v.length → (multE (.vec u) (.vec v)).isOk = true) ∧
    (∀ u v : List ℚ, u.length = v.length → (dotE u v).isOk = true) ∧
    (∀ u v : List ℚ, 3 ≤ u.length → 3 ≤ v.length → (crossE u v).isOk = true) ∧
    (∀ u v : List ℚ, ∀ s : ℚ, u.length = v.length → (mixE u v s).isOk = true) ∧
    (∀ s : ℚ, ∀ u : List ℚ, (scaleE s u).isOk = true) ∧
    (∀ l r b t n f : ℚ, l ≠ r → b ≠ t → n ≠ f →
      (orthoE l r b t n f).isOk = true) ∧
    (∀ u : Fin 3 → ℝ, (normalizeE u).isOk = true) ∧
    (∀ eye att up : List ℝ, eye.length = 3 → att.length = 3 → up.length = 3 →
      (lookAtE eye att up).isOk = true) := by
  refine ⟨fun u v h => ?_, fun u v h h2 => ?_, fun u v h => ?_, fun u v h h2 => ?_,
    fun u v h => ?_, fun u v h => ?_, fun u v h => ?_, fun u v h1 h2 => ?_,
    fun u v s h => ?_, fun s u => ?_, fun l r b t n f h1 h2 h3 => ?_,
    fun u => ?_, fun eye att up h1 h2 h3 => ?_⟩
  · simp [addE, h, Except.isOk, Except.toBool]
  · simp only [addE, h, h2]
    simp [Except.isOk, Except.toBool]
  · simp [subtractE, h, Except.isOk, Except.toBool]
  · simp only [multE, h, h2]
    simp [Except.isOk, Except.toBool]
  · simp [multE, h, Except.isOk, Except.toBool]
  · simp [multE, h, Except.isOk, Except.toBool]
  · simp [dotE, h, Except.isOk, Except.toBool]
  · simp [crossE, Nat.not_lt.mpr h1, Nat.not_lt.mpr h2, Except.isOk, Except.toBool]
  · simp [mixE, h, Except.isOk, Except.toBool]
  · simp [scaleE, Except.isOk, Except.toBool]
  · simp [orthoE, h1, h2, h3, Except.isOk, Except.toBool]
  · simp [normalizeE, isFiniteR, Except.isOk, Except.toBool]
  · simp [lookAtE, h1, h2, h3, Except.isOk, Except.toBool]

/-- Witness for the amended C6 at concrete well-formed inputs. -/
theorem claim_C6_amended_no_failure_witness :
    (([(1 : ℚ), 2]).length = ([(3 : ℚ), 4]).length ∧
      (addE (.vec [1, 2]) (.vec [3, 4])).isOk = true) ∧
    (([[(1 : ℚ)]]).length = ([[(2 : ℚ)]]).length ∧
      (([[(1 : ℚ)]].zip [[(2 : ℚ)]]).any fun p => p.1.length ≠ p.2.length) = false ∧
      (addE (.mat [[1]]) (.mat [[2]])).isOk = true) ∧
    (subtractE (.vec [(1 : ℚ), 2]) (.vec [3, 4])).isOk = true ∧
    (multE (.mat [[(1 : ℚ)]]) (.mat [[2]])).isOk = true ∧
    (multE (.mat [[(1 : ℚ)]]) (.vec [2])).isOk = true ∧
    (multE (.vec [(1 : ℚ), 2]) (.vec [3, 4])).isOk = true ∧
    (dotE [(1 : ℚ), 2] [3, 4]).isOk = true ∧
    (3 ≤ ([(1 : ℚ), 2, 3]).length ∧ (crossE [(1 : ℚ), 2, 3] [4, 5, 6]).isOk = true) ∧
    (mixE [(1 : ℚ), 2] [3, 4] 5).isOk = true ∧
    (scaleE (2 : ℚ) [1, 2, 3]).isOk = true ∧
    ((0 : ℚ) ≠ 1 ∧ (orthoE (0 : ℚ) 1 0 1 0 1).isOk = true) ∧
    (normalizeE ![(1 : ℝ), 0, 0]).isOk = true ∧
    (([(0 : ℝ), 0, 1]).length = 3 ∧
      (lookAtE [(0 : ℝ), 0, 1] [0, 0, 0] [0, 1, 0]).isOk = true) :=
  ⟨⟨rfl, claim_C6_amended_no_failure.1 _ _ rfl⟩,
   ⟨rfl, by decide, claim_C6_amended_no_failure.2.1 _ _ rfl (by decide)⟩,
   claim_C6_amended_no_failure.2.2.1 _ _ rfl,
   claim_C6_amended_no_failure.2.2.2.1 _ _ rfl (by decide),
   claim_C6_amended_no_failure.2.2.2.2.1 _ _ rfl,
   claim_C6_amended_no_failure.2.2.2.2.2.1 _ _ rfl,
   claim_C6_amended_no_failure.2.2.2.2.2.2.1 _ _ rfl,
   ⟨by decide, claim_C6_amended_no_failure.2.2.2.2.2.2.2.1 _ _ (by decide) (by decide)⟩,
   claim_C6_amended_no_failure.2.2.2.2.2.2.2.2.1 _ _ _ rfl,
   claim_C6_amended_no_failure.2.2.2.2.2.2.2.2.2.1 _ _,
   ⟨by norm_num, claim_C6_amended_no_failure.2.2.2.2.2.2.2.2.2.2.1 _ _ _ _ _ _
      (by norm_num) (by norm_num) (by norm_num)⟩,
   claim_C6_amended_no_failure.2.2.2.2.2.2.2.2.2.2.2.1 _,
   ⟨rfl, claim_C6_amended_no_failure.2.2.2.2.2.2.2.2.2.2.2.2 _ _ _ rfl rfl rfl⟩⟩

/-- Counterexample to C7 as stated: `normalize` is not stateless — the
return value of `normalize(u)` is the argument array `u` itself, mutated
in place (`u[i] /= len`), so after `normalize([2, 0, 0])` the argument
holds `[1, 0, 0]`, not its original value. -/
theorem claim_C7_counterexample :
    (normalizeSt ![(2 : ℝ), 0, 0]).2 ≠ ![(2 : ℝ), 0, 0] := by
  have hd : dot3 ![(2 : ℝ), 0, 0] ![(2 : ℝ), 0, 0] = 4 := by
    norm_num [dot3, Fin.sum_univ_three]
  have hl : lengthV ![(2 : ℝ), 0, 0] = 2 := by
    rw [lengthV, hd, show (4 : ℝ) = 2 ^ 2 by norm_num,
      Real.sqrt_sq (by norm_num : (0 : ℝ) ≤ 2)]
  intro h
  have h0 := congrFun h 0
  simp only [normalizeSt, normalize3, hl, Matrix.cons_val_zero] at h0
  norm_num at h0

/-- C7 as amended: the operations build fresh result arrays from reads of
their arguments, except that `normalize` divides its argument's components
in place by the computed length and returns that same array; a nonzero
argument therefore survives a `normalize` call unchanged exactly when its
length is already 1. -/
theorem claim_C7_amended_normalize_mutates (u : Fin 3 → ℝ) (hu : u ≠ 0) :
    (normalizeSt u).2 = u ↔ lengthV u = 1 := by
  obtain ⟨i, hi⟩ : ∃ i, u i ≠ 0 := by
    by_contra hc
    push_neg at hc
    exact hu (funext hc)
  constructor
  · intro h
    have hL : lengthV u ≠ 0 := by
      intro h0
      have hEq := congrFun h i
      simp [normalizeSt, normalize3, h0] at hEq
      exact hi hEq.symm
    have hEq := congrFun h i
    simp only [normalizeSt, normalize3] at hEq
    rw [div_eq_iff hL] at hEq
    nth_rewrite 1 [← mul_one (u i)] at hEq
    exact (mul_left_cancel₀ hi hEq).symm
  · intro h
    funext j
    simp [normalizeSt, normalize3, h]

/-- Witness for the amended C7: the unit vector `[1, 0, 0]` is nonzero and
is left unchanged by `normalize` since its length is 1. -/
theorem claim_C7_amended_normalize_mutates_witness :
    ![(1 : ℝ), 0, 0] ≠ 0 ∧
      ((normalizeSt ![(1 : ℝ), 0, 0]).2 = ![(1 : ℝ), 0, 0] ↔
        lengthV ![(1 : ℝ), 0, 0] = 1) :=
  have hu : ![(1 : ℝ), 0, 0] ≠ 0 := by
    intro h
    have h0 := congrFun h 0
    norm_num at h0
  ⟨hu, claim_C7_amended_normalize_mutates _ hu⟩

/-- C10: `normalize(u)` raises its error iff `length(u) = sqrt(dot(u, u))`
is not a finite number (never, over exact reals); for the all-zero vector
the computed length is 0 — finite — so the advertised "zero length" error
is not raised and the result divides each component by zero. -/
theorem claim_C10_normalize_guard :
    (∀ u : Fin 3 → ℝ, (∃ e, normalizeE u = .error e) ↔
      isFiniteR (lengthV u) = false) ∧
    lengthV ![(0 : ℝ), 0, 0] = 0 ∧
    isFiniteR (lengthV ![(0 : ℝ), 0, 0]) = true ∧
    normalizeE ![(0 : ℝ), 0, 0] = .ok (fun i => ![(0 : ℝ), 0, 0] i / 0) := by
  have hd : dot3 ![(0 : ℝ), 0, 0] ![(0 : ℝ), 0, 0] = 0 := by
    simp [dot3, Fin.sum_univ_three]
  have hl : lengthV ![(0 : ℝ), 0, 0] = 0 := by
    rw [lengthV, hd, Real.sqrt_zero]
  refine ⟨fun u => ⟨fun ⟨e, he⟩ => ?_, fun h => ?_⟩, hl, rfl, ?_⟩
  · simp [normalizeE, isFiniteR] at he
  · simp [isFiniteR] at h
  · simp only [normalizeE, isFiniteR]
    norm_num
    funext i
    fin_cases i <;> simp [normalize3]

/-- C3: for 0 < fovy < 180, aspect ≠ 0 and near ≠ far,
`perspective(fovy, aspect, near, far)` is the standard perspective matrix:
with `f = 1/tan(radians(fovy)/2)` and `d = far - near`, entry
`[0][0] = f/aspect`, `[1][1] = f`, `[2][2] = -(near+far)/d`,
`[2][3] = -2*near*far/d`, `[3][2] = -1`, `[3][3] = 0`, every other entry
0. -/
theorem claim_C3_perspective_entries (fovy aspect near far : ℝ)
    (hf0 : 0 < fovy) (hf180 : fovy < 180) (ha : aspect ≠ 0) (hnf : near ≠ far) :
    perspective fovy aspect near far =
      Matrix.of
        ![![(1.0 / Real.tan (radians fovy / 2)) / aspect, 0, 0, 0],
          ![0, 1.0 / Real.tan (radians fovy / 2), 0, 0],
          ![0, 0, -(near + far) / (far - near), -2 * near * far / (far - near)],
          ![0, 0, -1, 0]] := by
  ext i j
  fin_cases i <;> fin_cases j <;> rfl

/-- Witness for C3 at `fovy = 90`, `aspect = 1`, `near = 1`, `far = 2`. -/
theorem claim_C3_perspective_entries_witness :
    (0 : ℝ) < 90 ∧ (90 : ℝ) < 180 ∧ (1 : ℝ) ≠ 0 ∧ (1 : ℝ) ≠ 2 ∧
      perspective 90 1 1 2 =
        Matrix.of
          ![![(1.0 / Real.tan (radians 90 / 2)) / 1, 0, 0, 0],
            ![0, 1.0 / Real.tan (radians 90 / 2), 0, 0],
            ![0, 0, -((1 : ℝ) + 2) / (2 - 1), -2 * 1 * 2 / (2 - 1)],
            ![0, 0, -1, 0]] :=
  ⟨by norm_num, by norm_num, by norm_num, by norm_num,
    claim_C3_perspective_entries 90 1 1 2 (by norm_num) (by norm_num)
      (by norm_num) (by norm_num)⟩

/-! ### Helper lemmas for C4 (`lookAt`) -/

lemma lengthV_pos {u : Fin 3 → ℝ} (hu : u ≠ 0) : 0 < lengthV u := by
  obtain ⟨i, hi⟩ : ∃ i, u i ≠ 0 := by
    by_contra hc
    push_neg at hc
    exact hu (funext hc)
  have hd : 0 < dot3 u u := by
    refine Finset.sum_pos' (fun j _ => mul_self_nonneg (u j)) ?_
    exact ⟨i, Finset.mem_univ i, mul_self_pos.mpr hi⟩
  exact Real.sqrt_pos.mpr hd

lemma normalize3_eq_inv_smul (w : Fin 3 → ℝ) :
    normalize3 w = fun i => (1 / lengthV w) * w i := by
  funext i
  unfold normalize3
  ring

lemma normalize3_smul (w : Fin 3 → ℝ) {c : ℝ} (hc : 0 < c) :
    normalize3 (fun i => c * w i) = normalize3 w := by
  have hL : lengthV (fun i => c * w i) = c * lengthV w := by
    unfold lengthV dot3
    have hsum : ∑ j, (c * w j) * (c * w j) = c ^ 2 * ∑ j, w j * w j := by
      rw [Finset.mul_sum]
      exact Finset.sum_congr rfl fun j _ => by ring
    rw [hsum, Real.sqrt_mul (by positivity) _, Real.sqrt_sq hc.le]
  funext i
  unfold normalize3
  rw [hL]
  rcases eq_or_ne (lengthV w) 0 with h0 | h0
  · rw [h0, mul_zero, div_zero, div_zero]
  · rw [mul_div_mul_left _ _ (ne_of_gt hc)]

lemma cross3_smul_left (c : ℝ) (u v : Fin 3 → ℝ) :
    cross3 (fun i => c * u i) v = fun i => c * cross3 u v i := by
  funext i
  fin_cases i <;> simp [cross3] <;> ring

lemma cross3_smul_right (c : ℝ) (u v : Fin 3 → ℝ) :
    cross3 u (fun i => c * v i) = fun i => c * cross3 u v i := by
  funext i
  fin_cases i <;> simp [cross3] <;> ring

/-- Spec-side reading of the C4 rows: `view = at - eye`,
`n = normalize(cross(view, up))`, `u = normalize(cross(n, view))`, third
row the negated normalized view direction, each extended with
`-dot(row, eye)`, last row `(0, 0, 0, 1)`. -/
noncomputable def lookAtSpec (eye att up : Fin 3 → ℝ) : Matrix (Fin 4) (Fin 4) ℝ :=
  let view := subtract3 att eye
  let n := normalize3 (cross3 view up)
  let u := normalize3 (cross3 n view)
  let v := negate3 (normalize3 view)
  Matrix.of
    ![vec4of n (-dot3 n eye),
      vec4of u (-dot3 u eye),
      vec4of v (-dot3 v eye),
      ![0, 0, 0, 1]]

/-- C4: for `eye ≠ at`, nonzero `up`, and view direction `at - eye` not
parallel to `up`, `lookAt(eye, at, up)` returns the standard right-handed
view matrix described by `lookAtSpec`, and this matrix maps the
homogeneous point `(eye, 1)` to `(0, 0, 0, 1)`. -/
theorem claim_C4_lookAt_standard (eye att up : Fin 3 → ℝ)
    (hne : eye ≠ att) (hup : up ≠ 0)
    (hpar : cross3 (subtract3 att eye) up ≠ 0) :
    lookAt eye att up = lookAtSpec eye att up ∧
      multMV (lookAt eye att up) (vec4of eye 1) = ![0, 0, 0, 1] := by
  have hview : subtract3 att eye ≠ 0 := by
    intro h
    apply hne
    funext i
    have hc := congrFun h i
    simp only [subtract3, Pi.zero_apply, sub_eq_zero] at hc
    exact hc.symm
  have hL : 0 < lengthV (subtract3 att eye) := lengthV_pos hview
  have hinv : (0 : ℝ) < 1 / lengthV (subtract3 att eye) := by positivity
  have hn : normalize3 (cross3 (normalize3 (subtract3 att eye)) up)
      = normalize3 (cross3 (subtract3 att eye) up) := by
    rw [normalize3_eq_inv_smul (subtract3 att eye), cross3_smul_left,
      normalize3_smul _ hinv]
  have hu : ∀ n : Fin 3 → ℝ,
      normalize3 (cross3 n (normalize3 (subtract3 att eye)))
        = normalize3 (cross3 n (subtract3 att eye)) := by
    intro n
    rw [normalize3_eq_inv_smul (subtract3 att eye), cross3_smul_right,
      normalize3_smul _ hinv]
  have hmain : lookAt eye att up = lookAtSpec eye att up := by
    unfold lookAt lookAtSpec
    rw [if_neg hne]
    simp only [hn, hu]
  refine ⟨hmain, ?_⟩
  rw [hmain]
  unfold lookAtSpec
  funext i
  fin_cases i <;>
    simp [multMV, vec4of, dot3, negate3, Fin.sum_univ_four, Fin.sum_univ_three,
      Matrix.of_apply, Matrix.cons_val', Matrix.cons_val_zero, Matrix.cons_val_one,
      Matrix.cons_val_two, Matrix.cons_val_three, Matrix.head_cons, Matrix.tail_cons,
      Matrix.head_fin_const, Matrix.empty_val', Matrix.cons_val_fin_one,
      Fin.mk_zero, Fin.mk_one, fin4_mk_two, fin4_mk_three] <;>
    ring

/-- Witness for C4 at `eye = (0,0,1)`, `at = (0,0,0)`, `up = (0,1,0)`. -/
theorem claim_C4_lookAt_standard_witness :
    ![(0 : ℝ), 0, 1] ≠ ![(0 : ℝ), 0, 0] ∧ ![(0 : ℝ), 1, 0] ≠ 0 ∧
      cross3 (subtract3 ![(0 : ℝ), 0, 0] ![(0 : ℝ), 0, 1]) ![(0 : ℝ), 1, 0] ≠ 0 ∧
      lookAt ![(0 : ℝ), 0, 1] ![(0 : ℝ), 0, 0] ![(0 : ℝ), 1, 0] =
        lookAtSpec ![(0 : ℝ), 0, 1] ![(0 : ℝ), 0, 0] ![(0 : ℝ), 1, 0] ∧
      multMV (lookAt ![(0 : ℝ), 0, 1] ![(0 : ℝ), 0, 0] ![(0 : ℝ), 1, 0])
        (vec4of ![(0 : ℝ), 0, 1] 1) = ![0, 0, 0, 1] :=
  have h1 : ![(0 : ℝ), 0, 1] ≠ ![(0 : ℝ), 0, 0] := by
    intro h
    have hc := congrFun h 2
    norm_num at hc
  have h2 : ![(0 : ℝ), 1, 0] ≠ 0 := by
    intro h
    have hc := congrFun h 1
    norm_num at hc
  have h3 : cross3 (subtract3 ![(0 : ℝ), 0, 0] ![(0 : ℝ), 0, 1]) ![(0 : ℝ), 1, 0] ≠ 0 := by
    intro h
    have hc := congrFun h 0
    norm_num [cross3, subtract3] at hc
  have hmain := claim_C4_lookAt_standard ![(0 : ℝ), 0, 1] ![(0 : ℝ), 0, 0]
    ![(0 : ℝ), 1, 0] h1 h2 h3
  ⟨h1, h2, h3, hmain.1, hmain.2⟩

end Angel

namespace MatrixClass

/-! ## The ES6 `Vector`/`Matrix` class hierarchy (part_005 lines 36–400)

`Vector` and `Matrix` extend `Array`; their instances are JS arrays whose
elements are numbers (for vectors) or vectors (for matrices).  `JsVal`
models such a value.  The decisive detail: `Matrix2`'s constructor ends
with `super(...vector_collection)` (spread), while `Matrix3` and
`Matrix4` end with `super(vector_collection)` (no spread, lines 357 and
398).  `Matrix`'s constructor is `constructor(...vectors) {
super(...vectors) }`, so a `Matrix4` becomes an array with a SINGLE
element: the array holding its four `Vector4` rows. -/

/-- A value in the class hierarchy: a number, or an array of values. -/
inductive JsVal where
  | num (q : ℚ)
  | arr (elems : List JsVal)

/-- `new Vector4(x, y, z, d)` — an array of the four numbers (defaults
`0.0, 0.0, 0.0, 1.0`). -/
def vector4 (x y z d : ℚ) : JsVal := .arr [.num x, .num y, .num z, .num d]

/-- The four rows pushed into `vector_collection` by `Matrix4`'s `Number`
branch (`vector = v`): `Vector4(v,0,0,0) … Vector4(0,0,0,v)`. -/
def matrix4Rows (v : ℚ) : List JsVal :=
  [vector4 v 0 0 0, vector4 0 v 0 0, vector4 0 0 v 0, vector4 0 0 0 v]

/-- `new Matrix4(v)` for a number argument (default `v = 1`, the
identity): `super(vector_collection)` without spread wraps the four rows
in a single-element outer array. -/
def matrix4New (v : ℚ) : JsVal := .arr [.arr (matrix4Rows v)]

/-- `new Vector4(...row)` for a flat numeric row array: missing
components default to `0.0, 0.0, 0.0, 1.0`. -/
def vector4OfList (r : List ℚ) : JsVal :=
  vector4 (r.getD 0 0) (r.getD 1 0) (r.getD 2 0) (r.getD 3 1)

/-- `new Matrix4(rows)` for the accepted `Number[][]`/`Vector4[]` branch
(four rows of length 4; the `pop`/`unshift` loop preserves their order);
the final `super(vector_collection)` again wraps them once more. -/
def matrix4NewRows (r0 r1 r2 r3 : List ℚ) : JsVal :=
  .arr [.arr [vector4OfList r0, vector4OfList r1, vector4OfList r2, vector4OfList r3]]

/-- `.length` of a JS value.  Numbers have no `.length` (`undefined`); the
theorems below never take the length of a number, and `0` stands in. -/
def jsLength : JsVal → ℕ
  | .num _ => 0
  | .arr l => l.length

/-- `v[i]` with JS out-of-range reads collapsed to `0` (never exercised by
the theorems below). -/
def jsIndex (v : JsVal) (i : ℕ) : JsVal :=
  match v with
  | .num _ => .num 0
  | .arr l => l.getD i (.num 0)

/-- Numeric value of an entry (rows hold numbers only). -/
def toNum : JsVal → ℚ
  | .num q => q
  | .arr _ => 0

/-- The fresh `product_vector` allocated per output row:
`Reflect.construct(multiplication_matrix[0].constructor, [])`.  The
`Vector2/3/4` constructors produce arrays of length 2/3/4, so the class
of `multiplication_matrix[0]` is determined by its length; the defaults
are `Vector2() = [0,0]`, `Vector3() = [0,0,0]`, `Vector4() = [0,0,0,1]`. -/
def vecDefault : ℕ → List ℚ
  | 2 => [0, 0]
  | 3 => [0, 0, 0]
  | 4 => [0, 0, 0, 1]
  | _ => []

/-- One output row of `Matrix.prototype.times`: starting from the
constructor defaults, `product_vector[j] += row[k] * mm[k][j]` over all
`k`, for `j` below `mm[0].length`. -/
def productRow (row : JsVal) (mm : List JsVal) : JsVal :=
  let firstLen := jsLength (mm.headD (.num 0))
  .arr ((List.range firstLen).map (fun j =>
    .num ((vecDefault firstLen).getD j 0 +
      ((List.range mm.length).map (fun k =>
        toNum (jsIndex row k) * toNum (jsIndex (mm.getD k (.num 0)) j))).sum)))

/-- `Matrix.prototype.times(multiplication_matrix)` (lines 271–285): first
the guard `if (this[0].length !== multiplication_matrix.length) throw`;
only then `this.copy().map(row => product row)`.  A receiver that is not
a nonempty array of arrays would crash on `this[0].length` in JS
(modelled as an error; never exercised below). -/
def times (self other : JsVal) : Except String JsVal :=
  match self, other with
  | .arr (first :: rest), .arr os =>
    if jsLength first ≠ os.length then
      .error ("Matrix multiplication argument value miss-match. Argument row count(" ++
        toString os.length ++ ") must match this matrix column count(" ++
        toString (jsLength first) ++ ").")
    else
      .ok (.arr ((first :: rest).map (fun row => productRow row os)))
  | _, _ => .error "Matrix multiplication argument value miss-match."

/-- C5 (code bug): for matrices built with the `Matrix4` class
constructor — by either constructor branch — `a.times(b)` never returns
the 4×4 product: the missing spread in `super(vector_collection)` makes
`a.length = 1` and `a[0].length = 4`, so the guard
`this[0].length !== multiplication_matrix.length` compares 4 with 1 and
always throws. -/
theorem claim_C5_matrix4_times_throws :
    (∀ v w : ℚ, times (matrix4New v) (matrix4New w) =
      .error ("Matrix multiplication argument value miss-match. Argument row count(" ++
        toString 1 ++ ") must match this matrix column count(" ++ toString 4 ++ ").")) ∧
    (∀ r0 r1 r2 r3 s0 s1 s2 s3 : List ℚ,
      times (matrix4NewRows r0 r1 r2 r3) (matrix4NewRows s0 s1 s2 s3) =
        .error ("Matrix multiplication argument value miss-match. Argument row count(" ++
          toString 1 ++ ") must match this matrix column count(" ++ toString 4 ++ ").")) :=
  ⟨fun _ _ => rfl, fun _ _ _ _ _ _ _ _ => rfl⟩

end MatrixClass

namespace Buffers

/-! ## `BufferFactory` (buffers.js) vs the inline helpers of `initBuffers`
(main.js lines 79–170)

Both code paths drive the same `WebGLRenderingContext`; what can be
observed is the sequence of GL calls they issue and the buffer object
they return.  `GLCall` records one call; buffer objects are named by the
order of their `createBuffer` allocation (`st` is the next fresh name).
`Float32Array(data)`/`Uint16Array(data)` are recorded as tagged payloads:
both implementations apply the identical constructor to the identical
argument, so the tag plus payload captures observational equality without
modelling float rounding.  The factory's `_array_buffer`,
`_element_array_buffer` and `_static_draw` fields hold the context
constants `ARRAY_BUFFER`, `ELEMENT_ARRAY_BUFFER`, `STATIC_DRAW`,
represented by `GLTarget`/`GLUsage`. -/

/-- A GL binding target. -/
inductive GLTarget where
  | arrayBuffer
  | elementArrayBuffer

/-- A GL usage hint. -/
inductive GLUsage where
  | staticDraw

/-- A typed-array payload handed to `bufferData`. -/
inductive TypedArr where
  | f32 (data : List ℚ)
  | u16 (data : List ℚ)

/-- One observable call on the rendering context. -/
inductive GLCall where
  | createBuffer (id : ℕ)
  | bindBuffer (target : GLTarget) (id : ℕ)
  | bufferData (target : GLTarget) (src : TypedArr) (usage : GLUsage)

/-- `populateBuffer(target, webGLBuffer, bufferData)` (main.js):
`gl.bindBuffer(target, webGLBuffer); gl.bufferData(target, bufferData,
gl.STATIC_DRAW)`. -/
def populateBuffer (target : GLTarget) (buf : ℕ) (data : TypedArr) : List GLCall :=
  [.bindBuffer target buf, .bufferData target data .staticDraw]

/-- `populateArrayBuffer(webGLBuffer, bufferData)` (main.js):
`populateBuffer(gl.ARRAY_BUFFER, webGLBuffer, new Float32Array(bufferData))`. -/
def populateArrayBuffer (buf : ℕ) (data : List ℚ) : List GLCall :=
  populateBuffer .arrayBuffer buf (.f32 data)

/-- `populateElementBuffer(webGLBuffer, bufferData)` (main.js):
`populateBuffer(gl.ELEMENT_ARRAY_BUFFER, webGLBuffer, new Uint16Array(bufferData))`. -/
def populateElementBuffer (buf : ℕ) (data : List ℚ) : List GLCall :=
  populateBuffer .elementArrayBuffer buf (.u16 data)

/-- The per-buffer inline pattern of `initBuffers`:
`const b = gl.createBuffer();` followed by `populateArrayBuffer(b, data)`.
Returns (call trace, returned buffer, next fresh name). -/
def inlineCreateAttribute (st : ℕ) (data : List ℚ) : List GLCall × ℕ × ℕ :=
  ([GLCall.createBuffer st] ++ populateArrayBuffer st data, st, st + 1)

/-- The per-buffer inline pattern for the index buffer:
`const b = gl.createBuffer();` followed by `populateElementBuffer(b, data)`. -/
def inlineCreateIndex (st : ℕ) (data : List ℚ) : List GLCall × ℕ × ℕ :=
  ([GLCall.createBuffer st] ++ populateElementBuffer st data, st, st + 1)

/-- `BufferFactory.CreateBuffer()`: `gl.createBuffer()`. -/
def factoryCreateBuffer (st : ℕ) : List GLCall × ℕ × ℕ :=
  ([GLCall.createBuffer st], st, st + 1)

/-- `BufferFactory.BindBuffer(target, buffer)`: `gl.bindBuffer(target, buffer)`. -/
def factoryBindBuffer (target : GLTarget) (buf : ℕ) : List GLCall :=
  [GLCall.bindBuffer target buf]

/-- `BufferFactory.BindAttributeBuffer(buffer)`:
`this.BindBuffer(this._array_buffer, buffer)`. -/
def factoryBindAttributeBuffer (buf : ℕ) : List GLCall :=
  factoryBindBuffer .arrayBuffer buf

/-- `BufferFactory.BindIndexBuffer(buffer)`:
`this.BindBuffer(this._element_array_buffer, buffer)`. -/
def factoryBindIndexBuffer (buf : ℕ) : List GLCall :=
  factoryBindBuffer .elementArrayBuffer buf

/-- `BufferFactory.BufferData(target, src_data, usage)`:
`gl.bufferData(target, src_data, usage)`. -/
def factoryBufferData (target : GLTarget) (src : TypedArr) (usage : GLUsage) :
    List GLCall :=
  [GLCall.bufferData target src usage]

/-- `BufferFactory.BufferAttributeData(buffer, src_data)`:
`BindAttributeBuffer(buffer)` then `BufferData(this._array_buffer,
new Float32Array(src_data), this._static_draw)`. -/
def factoryBufferAttributeData (buf : ℕ) (data : List ℚ) : List GLCall :=
  factoryBindAttributeBuffer buf ++
    factoryBufferData .arrayBuffer (.f32 data) .staticDraw

/-- `BufferFactory.BufferIndexData(buffer, src_data)`:
`BindIndexBuffer(buffer)` then `BufferData(this._element_array_buffer,
new Uint16Array(src_data), this._static_draw)`. -/
def factoryBufferIndexData (buf : ℕ) (data : List ℚ) : List GLCall :=
  factoryBindIndexBuffer buf ++
    factoryBufferData .elementArrayBuffer (.u16 data) .staticDraw

/-- `BufferFactory.CreateAttributeBuffer(data)`:
`const b = this.CreateBuffer(); this.BufferAttributeData(b, data);
return b`. -/
def factoryCreateAttributeBuffer (st : ℕ) (data : List ℚ) :
    List GLCall × ℕ × ℕ :=
  let c := factoryCreateBuffer st
  (c.1 ++ factoryBufferAttributeData c.2.1 data, c.2.1, c.2.2)

/-- `BufferFactory.CreateIndexBuffer(data)`:
`const b = this.CreateBuffer(); this.BufferIndexData(b, data);
return b`. -/
def factoryCreateIndexBuffer (st : ℕ) (data : List ℚ) :
    List GLCall × ℕ × ℕ :=
  let c := factoryCreateBuffer st
  (c.1 ++ factoryBufferIndexData c.2.1 data, c.2.1, c.2.2)

/-- C8: for every data array and allocation state, the refactored
`BufferFactory.CreateAttributeBuffer` issues exactly the inline
`createBuffer; bindBuffer(ARRAY_BUFFER, b); bufferData(ARRAY_BUFFER,
Float32Array(data), STATIC_DRAW)` sequence of `initBuffers` and returns
the same buffer, and `CreateIndexBuffer` likewise matches
`populateElementBuffer` with `ELEMENT_ARRAY_BUFFER`/`Uint16Array`: the
refactoring is observationally equivalent. -/
theorem claim_C8_buffer_factory_equiv :
    (∀ st : ℕ, ∀ data : List ℚ,
      factoryCreateAttributeBuffer st data = inlineCreateAttribute st data) ∧
    (∀ st : ℕ, ∀ data : List ℚ,
      factoryCreateIndexBuffer st data = inlineCreateIndex st data) :=
  ⟨fun _ _ => rfl, fun _ _ => rfl⟩

end Buffers
